import Mathlib

/-!
Verification of the credential-resolution / federation / login-URL pipeline of
joshdk/aws-console, as a shallow embedding of the Go source.

Conventions used throughout:
* Go byte strings are modelled as Lean `String`.
* Parsed JSON documents are modelled by the inductive `JValue`; a JSON
  document that is not syntactically valid behaves, for every claim below,
  exactly like a top-level value of the wrong type (both leave the target
  struct unchanged and make `json.Unmarshal` report an error), so the
  `jother` constructor also stands for malformed input.
* Go `time.Duration` values are modelled as nanosecond counts (`Nat`).
* Fallible Go functions returning `(T, error)` are modelled with `Option` or
  `Except`.
-/

/-- Model of a decoded JSON value. String and object values are the only
shapes the credential structs of the program can consume; `jother` stands for
every other JSON value (number, boolean, null, array) as well as for
syntactically invalid input, all of which make the relevant `json.Unmarshal`
calls report an error without touching the string fields modelled here. -/
inductive JValue where
  | jstr (s : String)
  | jobj (fields : List (String × JValue))
  | jother

/-- The three string fields of the nested credential struct used by
`FromReader` (`processcreds.CredentialProcessResponse` in the final source,
an identical anonymous struct in the earlier revision). Go's zero value has
every field equal to the empty string. -/
structure ProcessCreds where
  accessKeyID : String := ""
  secretAccessKey : String := ""
  sessionToken : String := ""
deriving DecidableEq

/-- One step of Go's `json.Unmarshal` into the credential struct: assign a
single JSON object member. Known keys of the wrong type record a decode error
(Go's decoder saves the error and keeps decoding the remaining members);
unknown keys are ignored. -/
def setCredField (c : ProcessCreds) (ok : Bool) (key : String) (v : JValue) :
    ProcessCreds × Bool :=
  match key, v with
  | "AccessKeyId", .jstr s => ({ c with accessKeyID := s }, ok)
  | "AccessKeyId", _ => (c, false)
  | "SecretAccessKey", .jstr s => ({ c with secretAccessKey := s }, ok)
  | "SecretAccessKey", _ => (c, false)
  | "SessionToken", .jstr s => ({ c with sessionToken := s }, ok)
  | "SessionToken", _ => (c, false)
  | _, _ => (c, ok)

/-- Go's `json.Unmarshal(body, &cpr)` for the flat credential struct: object
members are applied in order to the existing struct value (fields absent from
the JSON keep their previous value, later duplicate keys overwrite earlier
ones), and a non-object document is a type error that leaves the struct
unchanged. The `Bool` is `true` exactly when the unmarshal returns a nil
error. -/
def unmarshalProcessCreds (init : ProcessCreds) : JValue → ProcessCreds × Bool
  | .jobj fields =>
      fields.foldl (fun acc kv => setCredField acc.1 acc.2 kv.1 kv.2) (init, true)
  | _ => (init, false)

/-- The outer struct of `FromReader`, holding a single nested field tagged
`json:"Credentials"`. -/
structure CredsWrapper where
  credentials : ProcessCreds := {}
deriving DecidableEq

/-- Go's `json.Unmarshal(body, &result)` for the wrapper struct: only the
"Credentials" member is consumed, and it is decoded into the existing nested
struct value (merge semantics). -/
def unmarshalCredsWrapper (init : CredsWrapper) : JValue → CredsWrapper × Bool
  | .jobj fields =>
      fields.foldl
        (fun acc kv =>
          if kv.1 = "Credentials" then
            let inner := unmarshalProcessCreds acc.1.credentials kv.2
            (⟨inner.1⟩, acc.2 && inner.2)
          else acc)
        (init, true)
  | _ => (init, false)

/-- The `aws.Credentials` value produced by the credentials package (only the
three fields the program ever writes or reads). -/
structure Credentials where
  accessKeyID : String
  secretAccessKey : String
  sessionToken : String
deriving DecidableEq

/-- `FromReader` from the credentials package: read the whole body, try the
nested shape (a top-level "Credentials" object), accept when the unmarshal
succeeded and both the access key and the secret key are non-empty; otherwise
try the flat shape by unmarshalling the same bytes into `result.Credentials`
— the very struct the first attempt already populated — and accept under the
same condition; otherwise fail. `none` models the
"failed to parse credentials" error. -/
def fromReader (v : JValue) : Option Credentials :=
  let first := unmarshalCredsWrapper ⟨{}⟩ v
  if first.2 && first.1.credentials.accessKeyID != "" &&
      first.1.credentials.secretAccessKey != "" then
    some ⟨first.1.credentials.accessKeyID, first.1.credentials.secretAccessKey,
      first.1.credentials.sessionToken⟩
  else
    let second := unmarshalProcessCreds first.1.credentials v
    if second.2 && second.1.accessKeyID != "" && second.1.secretAccessKey != "" then
      some ⟨second.1.accessKeyID, second.1.secretAccessKey, second.1.sessionToken⟩
    else
      none

/-- Shape (1) of the claim: parsing the document as a top-level "Credentials"
object into a fresh struct yields both a non-empty access key and a non-empty
secret key. -/
def shape1Yields (v : JValue) : Bool :=
  let r := unmarshalCredsWrapper ⟨{}⟩ v
  r.2 && r.1.credentials.accessKeyID != "" && r.1.credentials.secretAccessKey != ""

/-- Shape (2) of the claim: parsing the document as a flat object into a
fresh struct yields both a non-empty access key and a non-empty secret key. -/
def shape2Yields (v : JValue) : Bool :=
  let r := unmarshalProcessCreds {} v
  r.2 && r.1.accessKeyID != "" && r.1.secretAccessKey != ""

/-- The flat-shape check as `FromReader` actually performs it: the second
unmarshal reuses the struct left behind by the first attempt, so fields set
while trying shape (1) persist unless the flat document overwrites them. -/
def shape2YieldsAfterShape1 (v : JValue) : Bool :=
  let first := unmarshalCredsWrapper ⟨{}⟩ v
  let second := unmarshalProcessCreds first.1.credentials v
  second.2 && second.1.accessKeyID != "" && second.1.secretAccessKey != ""

/-- Nanoseconds in a Go `time.Duration` second. -/
def nsPerSecond : Nat := 1000000000

/-- The minimum `DurationSeconds` value enforced by `FederateUser`:
`15 * time.Minute`, in nanoseconds. -/
def minDuration : Nat := 15 * 60 * nsPerSecond

/-- The fields of `sts.GetFederationTokenInput` that `FederateUser` sets.
`durationSeconds` is `none` when the `DurationSeconds` parameter is left
unset on the call. Go computes the seconds as `int32(duration.Seconds())`;
on the whole-second values this program ever sends the conversion coincides
with integer division by `nsPerSecond`, which is how it is modelled. -/
structure GetFederationTokenInput where
  durationSeconds : Option Nat
  name : String
  policyArns : List String
deriving DecidableEq

/-- Outcome of `FederateUser` up to the external STS call: either the input
credentials are returned unchanged with no network call, or a
`GetFederationToken` call is attempted with the given input. What STS then
returns is outside the program. -/
inductive FederateAction where
  | noop (creds : Credentials)
  | call (input : GetFederationTokenInput)
deriving DecidableEq

/-- `FederateUser` from the credentials package (final revision): return the
credentials unchanged when they already carry a session token; otherwise
build a `GetFederationToken` input with the session name and the single
policy ARN, clamp a non-zero duration below 15 minutes up to exactly
15 minutes, and set `DurationSeconds` only for a non-zero duration.
`durationNs` is the requested duration in nanoseconds. -/
def federateUser (creds : Credentials) (name policy : String) (durationNs : Nat) :
    FederateAction :=
  if creds.sessionToken != "" then
    .noop creds
  else
    let clamped := if durationNs != 0 && durationNs < minDuration then minDuration
      else durationNs
    .call
      { durationSeconds :=
          if clamped != 0 then some (clamped / nsPerSecond) else none
        name := name
        policyArns := [policy] }

/-- Model of Go's `strings.HasPrefix`, on character lists. -/
def isPrefixCharList : List Char → List Char → Bool
  | [], _ => true
  | _ :: _, [] => false
  | p :: ps, c :: cs => p == c && isPrefixCharList ps cs

/-- Model of Go's `strings.HasPrefix` on strings. -/
def hasPrefixStr (s p : String) : Bool :=
  isPrefixCharList p.data s.data

/-- Does the pattern occur anywhere in the character list? -/
def containsPat (p : List Char) : List Char → Bool
  | [] => isPrefixCharList p []
  | c :: cs => isPrefixCharList p (c :: cs) || containsPat p cs

/-- Model of Go's `strings.ReplaceAll` on character lists, for a non-empty
pattern (every call site in the program uses the fixed non-empty literal
pattern of the placeholder): scan left to right, and at each position that
starts an occurrence of the pattern emit the replacement and skip past the
occurrence. -/
def replaceAllAux (p r : List Char) : Nat → List Char → List Char
  | _, [] => []
  | 0, l => l
  | fuel + 1, c :: cs =>
    if isPrefixCharList p (c :: cs) then
      r ++ replaceAllAux p r fuel (cs.drop (p.length - 1))
    else
      c :: replaceAllAux p r fuel cs

/-- Model of Go's `strings.ReplaceAll` on strings (non-empty pattern). The
fuel argument of `replaceAllAux` only serves structural termination: every
step consumes at least one character, so fuel equal to the length of the
subject string is never exhausted. -/
def stringReplaceAll (s p r : String) : String :=
  ⟨replaceAllAux p.data r.data s.data.length s.data⟩

/-- Lexicographic order on character lists, mirroring Go's byte-wise string
order used by `url.Values.Encode` (which sorts query keys). All strings the
program sorts are ASCII, where byte order and character order agree. -/
def charListLe : List Char → List Char → Bool
  | [], _ => true
  | _ :: _, [] => false
  | a :: as, b :: bs =>
    if a < b then true else if b < a then false else charListLe as bs

/-- String order used for query-key sorting. -/
def strLe (a b : String) : Bool :=
  charListLe a.data b.data

/-- Insert a key/value pair into a key-sorted parameter list. -/
def insertParamSorted (kv : String × String) :
    List (String × String) → List (String × String)
  | [] => [kv]
  | x :: xs => if strLe kv.1 x.1 then kv :: x :: xs else x :: insertParamSorted kv xs

/-- Sort a parameter list by key, as `url.Values.Encode` does. Every call
site passes pairwise distinct keys, so neither duplicate handling nor
stability matters. -/
def sortParams (l : List (String × String)) : List (String × String) :=
  l.foldr insertParamSorted []

/-- Hexadecimal digit characters, as Go's JSON encoder emits them
(lowercase). -/
def hexDigit (n : Nat) : Char :=
  if n < 10 then Char.ofNat ('0'.toNat + n) else Char.ofNat ('a'.toNat + (n - 10))

/-- Escaping of one character by Go's `encoding/json` string encoder with
its default HTML escaping: quote, backslash, newline, carriage return and
tab get two-character escapes; `<`, `>`, `&` and the remaining control
characters become `\u00xx` sequences; everything else is emitted as is. -/
def escapeJSONChar (c : Char) : List Char :=
  if c = '"' then ['\\', '"']
  else if c = '\\' then ['\\', '\\']
  else if c = '\n' then ['\\', 'n']
  else if c = '\r' then ['\\', 'r']
  else if c = '\t' then ['\\', 't']
  else if c = '<' then ['\\', 'u', '0', '0', '3', 'c']
  else if c = '>' then ['\\', 'u', '0', '0', '3', 'e']
  else if c = '&' then ['\\', 'u', '0', '0', '2', '6']
  else if c.toNat < 32 then
    ['\\', 'u', '0', '0', hexDigit (c.toNat / 16), hexDigit (c.toNat % 16)]
  else [c]

/-- Go JSON string escaping applied to a whole string. -/
def jsonEscape (s : String) : String :=
  ⟨s.data.foldr (fun c acc => escapeJSONChar c ++ acc) []⟩

/-- The value of `json.Marshal` on the `sessionCreds` map built by
`GenerateLoginURL`: a JSON object with the keys `sessionId`, `sessionKey`
and `sessionToken` (Go marshals map keys in sorted order, which for these
three keys is the order written here). Marshalling a `map[string]string`
never fails. -/
def sessionJSON (c : Credentials) : String :=
  "\x7b\"sessionId\":\"" ++ jsonEscape c.accessKeyID ++
    "\",\"sessionKey\":\"" ++ jsonEscape c.secretAccessKey ++
    "\",\"sessionToken\":\"" ++ jsonEscape c.sessionToken ++ "\"\x7d"

/-- The URL used for AWS federation actions, a constant in
`GenerateLoginURL`. -/
def federationURL : String := "https://signin.aws.amazon.com/federation"

/-- A URL as produced by `urlParams`: the parsed base URL together with its
query parameters. The parameters are kept in decoded form and sorted by key,
matching what `url.Values.Encode` serialises; the claims about
`GenerateLoginURL` compare decoded parameter sets. -/
structure URL where
  base : String
  query : List (String × String)
deriving DecidableEq

/-- The `urlParams` helper of the console package: parse the raw URL (every
call passes the constant `federationURL`, on which `url.Parse` cannot fail)
and set each given parameter value. -/
def urlParams (rawURL : String) (values : List (String × String)) : URL :=
  ⟨rawURL, sortParams values⟩

/-- The query parameters of the get-signin-token request built by
`GenerateLoginURL`: `Action`, the JSON-encoded `Session`, and — only for a
non-zero duration — `SessionDuration` in whole seconds (Go computes
`strconv.Itoa(int(duration.Seconds()))`; on whole-second values this is
integer division by `nsPerSecond`). -/
def signinTokenRequestValues (creds : Credentials) (durationNs : Nat) :
    List (String × String) :=
  [("Action", "getSigninToken"), ("Session", sessionJSON creds)] ++
    (if durationNs != 0 then
      [("SessionDuration", toString (durationNs / nsPerSecond))]
    else [])

/-- The URL of the get-signin-token request issued by `GenerateLoginURL`. -/
def signinTokenURL (creds : Credentials) (durationNs : Nat) : URL :=
  urlParams federationURL (signinTokenRequestValues creds durationNs)

/-- Decoding loop of `extractToken`: Go's decoder walks the object members
in order, overwriting the `SigninToken` field on each occurrence; a
`SigninToken` member that is not a string is a decode error. Members with
other keys are ignored. -/
def extractTokenAux : List (String × JValue) → String → Option String
  | [], acc => some acc
  | (k, v) :: rest, acc =>
    if k = "SigninToken" then
      match v with
      | .jstr s => extractTokenAux rest s
      | _ => none
    else
      extractTokenAux rest acc

/-- `extractToken` from the console package: decode the response body into a
struct with the single field `SigninToken`. A body that is not a JSON object
is a decode error (`none`); an object without a `SigninToken` member decodes
without error and leaves the field at its zero value, the empty string. -/
def extractToken : JValue → Option String
  | .jobj fields => extractTokenAux fields ""
  | _ => none

/-- The HTTP response of the get-signin-token request, as far as
`GenerateLoginURL` inspects it: the numeric status code, the status line
text (Go's `resp.Status`, e.g. "403 Forbidden"), and the parsed body. -/
structure HTTPResponse where
  statusCode : Nat
  status : String
  body : JValue

/-- The errors `GenerateLoginURL` can produce after receiving a response:
the non-200 error `fmt.Errorf("request failed: %s", resp.Status)`, carrying
the status text, or a JSON decode error from `extractToken`. -/
inductive GenError where
  | requestFailed (status : String)
  | tokenDecode
deriving DecidableEq

/-- `GenerateLoginURL` from the console package, from the point where the
get-signin-token response is available (building the request cannot fail:
the JSON marshal and the parse of the constant `federationURL` always
succeed; transport-level errors mean no response and are outside this
model). A non-200 status is an error carrying the status text; then the body
is decoded by `extractToken`; on success the result is the login URL over
the same federation endpoint with `Action`, `Destination` and the extracted
`SigninToken`. -/
def generateLoginURL (creds : Credentials) (durationNs : Nat) (location : String)
    (resp : HTTPResponse) : Except GenError URL :=
  let _requestURL := signinTokenURL creds durationNs
  if resp.statusCode != 200 then
    .error (.requestFailed resp.status)
  else
    match extractToken resp.body with
    | none => .error .tokenDecode
    | some token =>
      .ok (urlParams federationURL
        [("Action", "login"), ("Destination", location), ("SigninToken", token)])

/-- The `\x7b\x7b.region\x7d\x7d` placeholder that `resolveLocationAlias`
replaces (the braces are written as hex escapes). -/
def regionPlaceholder : String := "\x7b\x7b.region\x7d\x7d"

/-- The location alias table of the cmd package (`\x7b`/`\x7d` stand for the
literal braces of the placeholders). -/
def locations : List (String × String) :=
  [("account", "https://console.aws.amazon.com/billing/home#/account"),
   ("billing", "https://console.aws.amazon.com/billing/home"),
   ("console", "https://\x7b\x7b.region\x7d\x7d.console.aws.amazon.com/console/home?region=\x7b\x7b.region\x7d\x7d"),
   ("ec2", "https://\x7b\x7b.region\x7d\x7d.console.aws.amazon.com/ec2/home?region=\x7b\x7b.region\x7d\x7d#Home:"),
   ("ecr", "https://\x7b\x7b.region\x7d\x7d.console.aws.amazon.com/ecr/repositories?region=\x7b\x7b.region\x7d\x7d"),
   ("eks", "https://\x7b\x7b.region\x7d\x7d.console.aws.amazon.com/eks/home?region=\x7b\x7b.region\x7d\x7d#/clusters"),
   ("groups", "https://console.aws.amazon.com/iamv2/home#/groups"),
   ("home", "https://\x7b\x7b.region\x7d\x7d.console.aws.amazon.com/console/home?region=\x7b\x7b.region\x7d\x7d"),
   ("iam", "https://console.aws.amazon.com/iamv2/home#/home"),
   ("kms", "https://\x7b\x7b.region\x7d\x7d.console.aws.amazon.com/kms/home?region=\x7b\x7b.region\x7d\x7d#/kms/keys"),
   ("org", "https://console.aws.amazon.com/organizations/v2/home/dashboard"),
   ("policies", "https://console.aws.amazon.com/iamv2/home#/policies"),
   ("r53", "https://console.aws.amazon.com/route53/v2/hostedzones#"),
   ("rds", "https://\x7b\x7b.region\x7d\x7d.console.aws.amazon.com/rds/home?region=\x7b\x7b.region\x7d\x7d#databases:"),
   ("roles", "https://console.aws.amazon.com/iamv2/home#/roles"),
   ("s3", "https://s3.console.aws.amazon.com/s3/buckets?region=\x7b\x7b.region\x7d\x7d"),
   ("support", "https://support.console.aws.amazon.com/support/home"),
   ("users", "https://console.aws.amazon.com/iamv2/home#/users"),
   ("vpn", "https://\x7b\x7b.region\x7d\x7d.console.aws.amazon.com/vpc/home?region=\x7b\x7b.region\x7d\x7d#ClientVPNEndpoints:")]

/-- `resolveLocationAlias` from the cmd package: an alias that already
starts with "https://" is used directly as the template; otherwise the alias
is looked up in the locations table, and an unknown alias reports not-found
(Go's `("", false)`, modelled as `none`). The chosen template — including a
directly-used URL — then has every region placeholder replaced. -/
def resolveLocationAlias (aliasName region : String) : Option String :=
  let template? : Option String :=
    if hasPrefixStr aliasName "https://" then some aliasName
    else locations.lookup aliasName
  match template? with
  | some template => some (stringReplaceAll template regionPlaceholder region)
  | none => none

/-- `resolvePolicyAlias` from the cmd package: the policy alias table,
written as the exact-match lookup the Go map performs; an alias that is not
a key is returned unchanged. -/
def resolvePolicyAlias (aliasName : String) : String :=
  if aliasName = "admin" then "arn:aws:iam::aws:policy/AdministratorAccess"
  else if aliasName = "all" then "arn:aws:iam::aws:policy/AdministratorAccess"
  else if aliasName = "billing" then "arn:aws:iam::aws:policy/job-function/Billing"
  else if aliasName = "readonly" then "arn:aws:iam::aws:policy/ReadOnlyAccess"
  else if aliasName = "ro" then "arn:aws:iam::aws:policy/ReadOnlyAccess"
  else aliasName

/-- The console domain and federation endpoint of one partition. -/
structure PartitionURLs where
  consoleDomain : String
  federationURL : String
deriving DecidableEq

/-- The `partitionURLs` table of the credentials package. -/
def partitionURLs : List (String × PartitionURLs) :=
  [("aws", ⟨"console.aws.amazon.com", "https://signin.aws.amazon.com/federation"⟩),
   ("aws-cn", ⟨"console.amazonaws.cn", "https://signin.amazonaws.cn/federation"⟩),
   ("aws-us-gov",
     ⟨"console.amazonaws-us-gov.com", "https://signin.amazonaws-us-gov.com/federation"⟩)]

/-- `ResolveRegionPartition` from the credentials package. The SDK's
endpoint resolver is external; `classify` models it, with `some p` for a
successful resolution to partition `p` and `none` for a resolution error.
The partition defaults to "aws" when resolution fails, and the result is the
partition with its console domain and federation URL when the table has an
entry, or `("", "", "", false)` otherwise. -/
def resolveRegionPartition (classify : String → Option String) (region : String) :
    String × String × String × Bool :=
  let partition := (classify region).getD "aws"
  match partitionURLs.lookup partition with
  | some urls => (partition, urls.consoleDomain, urls.federationURL, true)
  | none => ("", "", "", false)

/-- Helper: a scan with any amount of fuel leaves a character list unchanged
when the pattern occurs nowhere in it. -/
theorem replaceAllAux_of_not_contains (p r : List Char) (fuel : Nat)
    (l : List Char) (h : containsPat p l = false) :
    replaceAllAux p r fuel l = l := by
  induction fuel generalizing l with
  | zero => cases l <;> rfl
  | succ fuel ih =>
    cases l with
    | nil => rfl
    | cons c cs =>
      simp only [containsPat, Bool.or_eq_false_iff] at h
      simp only [replaceAllAux, h.1, Bool.false_eq_true, if_false]
      exact congrArg (c :: ·) (ih cs h.2)

/-- Helper: `strings.ReplaceAll` is the identity on a string that does not
contain the pattern. -/
theorem stringReplaceAll_of_not_contains (s p r : String)
    (h : containsPat p.data s.data = false) : stringReplaceAll s p r = s := by
  unfold stringReplaceAll
  rw [replaceAllAux_of_not_contains p.data r.data s.data.length s.data h]

/-- Helper: decoding an object without a "SigninToken" member keeps the
accumulated field value and reports no error. -/
theorem extractTokenAux_no_key (fields : List (String × JValue)) (acc : String)
    (h : fields.lookup "SigninToken" = none) : extractTokenAux fields acc = some acc := by
  induction fields generalizing acc with
  | nil => rfl
  | cons kv rest ih =>
    by_cases hk : kv.1 = "SigninToken"
    · exfalso
      rw [List.lookup, hk] at h
      simp at h
    · rw [List.lookup] at h
      have hne : ("SigninToken" == kv.1) = false := by
        simp [Ne.symm hk]
      rw [hne] at h
      cases kv with
      | mk k v =>
        simp only at hk
        simp only [extractTokenAux, hk, if_false]
        exact ih acc h

/-- C1 counterexample: a JSON document in which neither shape (1) nor
shape (2), each parsed into a fresh struct, yields both a non-empty access
key and a non-empty secret key — yet `FromReader` succeeds, because the
second unmarshal reuses the access key left behind by the first attempt. -/
theorem fromReader_mixed_shapes_counterexample :
    shape1Yields (.jobj [("Credentials", .jobj [("AccessKeyId", .jstr "A")]),
      ("SecretAccessKey", .jstr "S")]) = false ∧
    shape2Yields (.jobj [("Credentials", .jobj [("AccessKeyId", .jstr "A")]),
      ("SecretAccessKey", .jstr "S")]) = false ∧
    fromReader (.jobj [("Credentials", .jobj [("AccessKeyId", .jstr "A")]),
      ("SecretAccessKey", .jstr "S")]) = some ⟨"A", "S", ""⟩ :=
  ⟨rfl, rfl, rfl⟩

/-- C1 (amended): `FromReader` fails exactly when the shape (1) check fails
and the shape (2) check — performed, as the code does, on the struct left
behind by the shape (1) attempt, so fields set there persist unless
overwritten — also fails. -/
theorem fromReader_none_iff (v : JValue) :
    fromReader v = none ↔
      shape1Yields v = false ∧ shape2YieldsAfterShape1 v = false := by
  simp only [fromReader, shape1Yields, shape2YieldsAfterShape1]
  split_ifs with h1 h2 <;> simp_all

/-- C2 counterexample: an HTTP 200 response whose JSON body parses but
contains no `SigninToken` field does not make `GenerateLoginURL` fail — the
decoded field stays at its zero value and a login URL with an empty
`SigninToken` parameter is returned. -/
theorem generateLoginURL_absent_token_counterexample :
    generateLoginURL ⟨"AKIA...", "secret", ""⟩ 0
      "https://console.aws.amazon.com/console/home" ⟨200, "200 OK", .jobj []⟩ =
    .ok ⟨federationURL,
      [("Action", "login"),
       ("Destination", "https://console.aws.amazon.com/console/home"),
       ("SigninToken", "")]⟩ :=
  rfl

/-- C2 (amended): for a 200 response, a body that fails to decode as JSON is
a fatal error, but a body that decodes to an object without a `SigninToken`
member is not: the field keeps its zero value and `GenerateLoginURL` succeeds
with an empty `SigninToken` parameter. -/
theorem generateLoginURL_token_decode (c : Credentials) (d : Nat) (loc : String)
    (resp : HTTPResponse) (h200 : resp.statusCode = 200) :
    (extractToken resp.body = none →
      generateLoginURL c d loc resp = .error .tokenDecode) ∧
    (∀ fields, resp.body = .jobj fields → fields.lookup "SigninToken" = none →
      generateLoginURL c d loc resp =
        .ok (urlParams federationURL
          [("Action", "login"), ("Destination", loc), ("SigninToken", "")])) := by
  constructor
  · intro hbody
    simp [generateLoginURL, h200, hbody]
  · intro fields hfields hno
    simp [generateLoginURL, h200, hfields, extractToken,
      extractTokenAux_no_key fields "" hno]

/-- Witness for C2 (amended) at a concrete non-JSON body and a concrete
empty-object body. -/
theorem generateLoginURL_token_decode_witness :
    (HTTPResponse.mk 200 "200 OK" .jother).statusCode = 200 ∧
    extractToken (HTTPResponse.mk 200 "200 OK" .jother).body = none ∧
    generateLoginURL ⟨"A", "k", ""⟩ 0 "https://x" ⟨200, "200 OK", .jother⟩ =
      .error .tokenDecode ∧
    generateLoginURL ⟨"A", "k", ""⟩ 0 "https://x" ⟨200, "200 OK", .jobj []⟩ =
      .ok (urlParams federationURL
        [("Action", "login"), ("Destination", "https://x"), ("SigninToken", "")]) :=
  ⟨rfl, rfl,
   (generateLoginURL_token_decode ⟨"A", "k", ""⟩ 0 "https://x"
     ⟨200, "200 OK", .jother⟩ rfl).1 rfl,
   (generateLoginURL_token_decode ⟨"A", "k", ""⟩ 0 "https://x"
     ⟨200, "200 OK", .jobj []⟩ rfl).2 [] rfl rfl⟩

/-- C3: with user credentials (empty session token), a requested duration
that is positive and below 900 seconds is sent as `DurationSeconds = 900` on
the `GetFederationToken` call, and a requested duration of zero leaves the
`DurationSeconds` parameter unset. Durations are in nanoseconds. -/
theorem federateUser_duration_clamp (c : Credentials) (n p : String) (d : Nat)
    (hc : c.sessionToken = "") :
    (0 < d → d < 900 * nsPerSecond →
      federateUser c n p d = .call ⟨some 900, n, [p]⟩) ∧
    federateUser c n p 0 = .call ⟨none, n, [p]⟩ := by
  constructor
  · intro hpos hlt
    have hd0 : d ≠ 0 := Nat.pos_iff_ne_zero.mp hpos
    have h9 : d < 900000000000 := by
      simp only [nsPerSecond] at hlt
      omega
    simp [federateUser, hc, minDuration, nsPerSecond, hd0, h9]
  · simp [federateUser, hc]

/-- Witness for C3 at a concrete one-second duration. -/
theorem federateUser_duration_clamp_witness :
    (Credentials.mk "AKIA" "k" "").sessionToken = "" ∧
    0 < nsPerSecond ∧ nsPerSecond < 900 * nsPerSecond ∧
    federateUser ⟨"AKIA", "k", ""⟩ "aws-console" "arn:p" nsPerSecond =
      .call ⟨some 900, "aws-console", ["arn:p"]⟩ ∧
    federateUser ⟨"AKIA", "k", ""⟩ "aws-console" "arn:p" 0 =
      .call ⟨none, "aws-console", ["arn:p"]⟩ :=
  ⟨rfl, by decide, by decide,
   (federateUser_duration_clamp ⟨"AKIA", "k", ""⟩ "aws-console" "arn:p"
     nsPerSecond rfl).1 (by decide) (by decide),
   (federateUser_duration_clamp ⟨"AKIA", "k", ""⟩ "aws-console" "arn:p"
     nsPerSecond rfl).2⟩

/-- C4: `FederateUser` returns the credentials unchanged with no network
call exactly when the session token is non-empty; with an empty session
token it always attempts the `GetFederationToken` call. -/
theorem federateUser_noop_iff (c : Credentials) (n p : String) (d : Nat) :
    (federateUser c n p d = .noop c ↔ c.sessionToken ≠ "") ∧
    (c.sessionToken = "" → ∃ input, federateUser c n p d = .call input) := by
  by_cases h : c.sessionToken = ""
  · constructor
    · simp [federateUser, h]
    · intro _
      cases hres : federateUser c n p d with
      | noop c2 =>
        exfalso
        simp [federateUser, h] at hres
      | call input => exact ⟨input, rfl⟩
  · constructor
    · simp [federateUser, h]
    · intro hemp
      exact absurd hemp h

/-- Witness for C4 at concrete user credentials. -/
theorem federateUser_noop_iff_witness :
    (Credentials.mk "AKIA" "k" "").sessionToken = "" ∧
    (∃ input, federateUser ⟨"AKIA", "k", ""⟩ "n" "p" 7 = .call input) :=
  ⟨rfl, (federateUser_noop_iff ⟨"AKIA", "k", ""⟩ "n" "p" 7).2 rfl⟩

/-- C5: with credentials `(sessionId "AKIA...", sessionKey "secret", empty
session token)` and duration 0, the get-signin-token request goes to the
federation endpoint with `Action=getSigninToken` and without a
`SessionDuration` parameter, and on a mocked 200 response containing
`SigninToken "TOK123"` the returned URL's decoded parameter set over the
federation endpoint is exactly `Action=login`,
`Destination=https://console.aws.amazon.com/console/home`,
`SigninToken=TOK123`. -/
theorem generateLoginURL_mocked_flow :
    (signinTokenURL ⟨"AKIA...", "secret", ""⟩ 0).base = federationURL ∧
    (signinTokenURL ⟨"AKIA...", "secret", ""⟩ 0).query.lookup "Action" =
      some "getSigninToken" ∧
    (signinTokenURL ⟨"AKIA...", "secret", ""⟩ 0).query.lookup "SessionDuration" =
      none ∧
    generateLoginURL ⟨"AKIA...", "secret", ""⟩ 0
      "https://console.aws.amazon.com/console/home"
      ⟨200, "200 OK", .jobj [("SigninToken", .jstr "TOK123")]⟩ =
    .ok ⟨federationURL,
      [("Action", "login"),
       ("Destination", "https://console.aws.amazon.com/console/home"),
       ("SigninToken", "TOK123")]⟩ :=
  ⟨rfl, rfl, rfl, rfl⟩

/-- C6: any response to the signin-token request with a status other than
200 makes `GenerateLoginURL` fail with the request-failed error carrying the
response's status text, and no URL is returned. -/
theorem generateLoginURL_non200 (c : Credentials) (d : Nat) (loc : String)
    (resp : HTTPResponse) (h : resp.statusCode ≠ 200) :
    generateLoginURL c d loc resp = .error (.requestFailed resp.status) := by
  simp [generateLoginURL, h]

/-- Witness for C6 at a concrete 403 response. -/
theorem generateLoginURL_non200_witness :
    (HTTPResponse.mk 403 "403 Forbidden" (.jobj [])).statusCode ≠ 200 ∧
    generateLoginURL ⟨"A", "k", ""⟩ 0 "https://x" ⟨403, "403 Forbidden", .jobj []⟩ =
      .error (.requestFailed "403 Forbidden") :=
  ⟨by decide,
   generateLoginURL_non200 ⟨"A", "k", ""⟩ 0 "https://x"
     ⟨403, "403 Forbidden", .jobj []⟩ (by decide)⟩

/-- C7 counterexample: an alias beginning with "https://" whose text
contains the region placeholder is not returned byte-for-byte unchanged —
`resolveLocationAlias` substitutes the placeholder even in directly-supplied
URLs (the braces of the placeholder are written as hex escapes). -/
theorem resolveLocationAlias_not_verbatim_counterexample :
    resolveLocationAlias "https://example.com/\x7b\x7b.region\x7d\x7d/x" "us-east-1" =
      some "https://example.com/us-east-1/x" ∧
    ("https://example.com/us-east-1/x" : String) ≠
      "https://example.com/\x7b\x7b.region\x7d\x7d/x" :=
  ⟨rfl, by decide⟩

/-- C7 (amended): an alias beginning with "https://" is always found, and is
returned with every region placeholder replaced by the region argument; in
particular it is returned verbatim whenever it does not contain the
placeholder. (The source function takes only the alias and the region; there
is no console-domain argument.) -/
theorem resolveLocationAlias_https (a region : String)
    (h : hasPrefixStr a "https://" = true) :
    resolveLocationAlias a region =
      some (stringReplaceAll a regionPlaceholder region) ∧
    (containsPat regionPlaceholder.data a.data = false →
      resolveLocationAlias a region = some a) := by
  constructor
  · simp [resolveLocationAlias, h]
  · intro hc
    simp [resolveLocationAlias, h,
      stringReplaceAll_of_not_contains a regionPlaceholder region hc]

/-- Witness for C7 (amended) at the concrete alias of the spec's example. -/
theorem resolveLocationAlias_https_witness :
    hasPrefixStr "https://example.com/x" "https://" = true ∧
    containsPat regionPlaceholder.data ("https://example.com/x" : String).data = false ∧
    resolveLocationAlias "https://example.com/x" "us-east-1" =
      some "https://example.com/x" :=
  ⟨rfl, rfl,
   (resolveLocationAlias_https "https://example.com/x" "us-east-1" rfl).2 rfl⟩

/-- C8: the partition defaults to "aws" when the endpoint resolver fails
(and "aws" is mapped, so resolution then succeeds with the commercial
domains), and the not-found result — with empty partition, domain and
endpoint — occurs exactly when the classified partition is none of the three
mapped partitions aws, aws-cn and aws-us-gov. -/
theorem resolveRegionPartition_spec (classify : String → Option String)
    (region : String) :
    (classify region = none →
      resolveRegionPartition classify region =
        ("aws", "console.aws.amazon.com",
          "https://signin.aws.amazon.com/federation", true)) ∧
    ((resolveRegionPartition classify region).2.2.2 = false ↔
      ((classify region).getD "aws" ≠ "aws" ∧
        (classify region).getD "aws" ≠ "aws-cn" ∧
        (classify region).getD "aws" ≠ "aws-us-gov")) ∧
    ((resolveRegionPartition classify region).2.2.2 = false →
      resolveRegionPartition classify region = ("", "", "", false)) := by
  refine ⟨?_, ?_, ?_⟩
  · intro h
    simp [resolveRegionPartition, h, partitionURLs, List.lookup]
  · by_cases h1 : (classify region).getD "aws" = "aws"
    · simp [resolveRegionPartition, partitionURLs, List.lookup, h1]
    · by_cases h2 : (classify region).getD "aws" = "aws-cn"
      · simp [resolveRegionPartition, partitionURLs, List.lookup, h2]
      · by_cases h3 : (classify region).getD "aws" = "aws-us-gov"
        · simp [resolveRegionPartition, partitionURLs, List.lookup, h3]
        · have e1 : ((classify region).getD "aws" == "aws") = false := by
            simp [h1]
          have e2 : ((classify region).getD "aws" == "aws-cn") = false := by
            simp [h2]
          have e3 : ((classify region).getD "aws" == "aws-us-gov") = false := by
            simp [h3]
          simp [resolveRegionPartition, partitionURLs, List.lookup, e1, e2, e3,
            h1, h2, h3]
  · by_cases h1 : (classify region).getD "aws" = "aws"
    · simp [resolveRegionPartition, partitionURLs, List.lookup, h1]
    · by_cases h2 : (classify region).getD "aws" = "aws-cn"
      · simp [resolveRegionPartition, partitionURLs, List.lookup, h2]
      · by_cases h3 : (classify region).getD "aws" = "aws-us-gov"
        · simp [resolveRegionPartition, partitionURLs, List.lookup, h3]
        · have e1 : ((classify region).getD "aws" == "aws") = false := by
            simp [h1]
          have e2 : ((classify region).getD "aws" == "aws-cn") = false := by
            simp [h2]
          have e3 : ((classify region).getD "aws" == "aws-us-gov") = false := by
            simp [h3]
          simp [resolveRegionPartition, partitionURLs, List.lookup, e1, e2, e3]

/-- Witness for C8: an inconclusive classification falls back to the
commercial partition, and an unmapped partition reports not-found with empty
values. -/
theorem resolveRegionPartition_spec_witness :
    resolveRegionPartition (fun _ => none) "us-east-1" =
      ("aws", "console.aws.amazon.com",
        "https://signin.aws.amazon.com/federation", true) ∧
    resolveRegionPartition (fun _ => some "aws-iso") "us-iso-east-1" =
      ("", "", "", false) :=
  ⟨(resolveRegionPartition_spec (fun _ => none) "us-east-1").1 rfl,
   (resolveRegionPartition_spec (fun _ => some "aws-iso") "us-iso-east-1").2.2 rfl⟩

/-- C9: the "admin" policy alias resolves to the AdministratorAccess ARN in
the aws partition, and a literal policy ARN that is not an alias is returned
unchanged. -/
theorem resolvePolicyAlias_values :
    resolvePolicyAlias "admin" = "arn:aws:iam::aws:policy/AdministratorAccess" ∧
    resolvePolicyAlias "arn:aws:iam::123:policy/Custom" =
      "arn:aws:iam::123:policy/Custom" :=
  ⟨rfl, rfl⟩

/-- C10: `resolvePolicyAlias` is idempotent — no value of the policy alias
table is itself a key of the table, so a resolved ARN passes through a
second resolution unchanged. -/
theorem resolvePolicyAlias_idem (s : String) :
    resolvePolicyAlias (resolvePolicyAlias s) = resolvePolicyAlias s := by
  by_cases h1 : s = "admin"
  · subst h1; rfl
  by_cases h2 : s = "all"
  · subst h2; rfl
  by_cases h3 : s = "billing"
  · subst h3; rfl
  by_cases h4 : s = "readonly"
  · subst h4; rfl
  by_cases h5 : s = "ro"
  · subst h5; rfl
  have hs : resolvePolicyAlias s = s := by
    simp [resolvePolicyAlias, h1, h2, h3, h4, h5]
  rw [hs]
  exact hs
